import Mathlib

/-
Shallow embedding of the authenticated request pipeline of the pbclient
repository (src/client.go and src/errors.go; src/unnamed/part_000 is an
earlier variant with the same control flow).

Modelling conventions:
- instants are Nat (time.Now() is passed in as a parameter named now);
  a time.Time zero value is modelled as Option.none;
- durations are Int nanoseconds; the Go shift backoff << attempt on the
  int64 Duration is modelled with explicit wrapping mod 2^64;
- the HTTP transport is a parameter: the result of the i-th call that
  httpClient.Do performs inside the retry loop is transport i, and the
  renewal exchange performed during loop iteration i, when one happens,
  is auth i;
- JSON decoding of the renewal response body is a library call and is
  modelled by the AuthBody record holding the decoded fields (parseOk is
  the success of json.Unmarshal, token the decoded token field, msg the
  message that parsePBError and its fallbacks extract for mapHTTPError);
- the context is modelled per backoff wait: cancel i = some t means the
  cancellation signal of the caller fires t nanoseconds after the wait
  of iteration i starts (none = it never fires during that wait).
-/

namespace Pbclient

/-- Cred models the cached credential fields token and tokenExpires of
authenticatedClient (src/client.go lines 190-198). tokenExpires = none
models the zero time.Time. -/
structure Cred where
  token : String
  tokenExpires : Option Nat
deriving DecidableEq, Repr

/-- tokenValid models authenticatedClient.tokenValid (src/client.go lines
357-368): false when the token is empty, true when the expiry is the zero
time, otherwise time.Now().Before(tokenExpires). -/
def tokenValid (now : Nat) (c : Cred) : Bool :=
  if c.token = "" then false
  else
    match c.tokenExpires with
    | none => true
    | some e => decide (now < e)

/-- readToken models authenticatedClient.readToken (src/client.go lines
370-374). -/
def readToken (c : Cred) : String :=
  c.token

/-- clearToken models authenticatedClient.clearToken (src/client.go lines
376-381): the token becomes empty and the expiry the zero time. -/
def clearToken (_c : Cred) : Cred :=
  { token := "", tokenExpires := none }

/-- PBErr models the sentinel errors of src/errors.go together with the
message that wrapIfMessage attaches, and HTTPError for unmapped
statuses. -/
inductive PBErr where
  | badRequest (msg : String)
  | unauthorized (msg : String)
  | forbidden (msg : String)
  | notFound (msg : String)
  | conflict (msg : String)
  | validation (msg : String)
  | rateLimited (msg : String)
  | server (msg : String)
  | httpStatus (status : Nat) (msg : String)
deriving DecidableEq, Repr

/-- mapHTTPError models mapHTTPError (src/errors.go lines 55-93) given the
status and the message already extracted from the body; none models a nil
error (the 2xx branch). -/
def mapHTTPError (status : Nat) (msg : String) : Option PBErr :=
  match status with
  | 400 => some (.badRequest msg)
  | 401 => some (.unauthorized msg)
  | 403 => some (.forbidden msg)
  | 404 => some (.notFound msg)
  | 409 => some (.conflict msg)
  | 422 => some (.validation msg)
  | 429 => some (.rateLimited msg)
  | s =>
    if 500 ≤ s then some (.server msg)
    else if 200 ≤ s ∧ s < 300 then none
    else some (.httpStatus s msg)

/-- ClientErr models the error values the pipeline returns: the wrapped
fmt errors of reauthenticate and Do, the mapped PBErr values, the verbatim
transport error, ctx.Err() and the defensive final error of the loop. -/
inductive ClientErr where
  | authRequestFailed (msg : String)
  | authReadBody (msg : String)
  | pb (e : PBErr)
  | authParse
  | tokenMissing
  | readRequestBody (msg : String)
  | transport (msg : String)
  | ctxCanceled
  | retriesExhausted
deriving DecidableEq, Repr

/-- AuthBody models the decoded renewal response body: msg is the message
mapHTTPError extracts, parseOk the success of json.Unmarshal, token the
decoded token field (empty when absent). -/
structure AuthBody where
  msg : String
  parseOk : Bool
  token : String
deriving DecidableEq, Repr

/-- AuthHTTP models the outcome of one renewal HTTP exchange: a transport
error from httpClient.Do, an io.ReadAll failure on the response body, or a
response with its status and decoded body. -/
inductive AuthHTTP where
  | terr (msg : String)
  | readErr (status : Nat) (msg : String)
  | resp (status : Nat) (body : AuthBody)
deriving DecidableEq, Repr

/-- validityWindow is the 23 hour expiry window of src/client.go line 327,
in nanoseconds. -/
def validityWindow : Nat := 23 * 60 * 60 * 1000000000

/-- reauthenticate models authenticatedClient.reauthenticate
(src/client.go lines 283-337) as a state transformer on the credential,
returning the Go error value (none = nil) and the resulting credential.
The branch order follows the source: transport error, body read error,
non-200 status (clearToken then mapHTTPError), json.Unmarshal failure,
empty token, success (set token and expiry = now + validityWindow). -/
def reauthenticate (now : Nat) (call : AuthHTTP) (cred : Cred) :
    Option ClientErr × Cred :=
  match call with
  | .terr m => (some (.authRequestFailed m), cred)
  | .readErr _ m => (some (.authReadBody m), cred)
  | .resp status body =>
    if status ≠ 200 then
      ((mapHTTPError status body.msg).map ClientErr.pb, clearToken cred)
    else if body.parseOk = false then
      (some .authParse, cred)
    else if body.token = "" then
      (some .tokenMissing, cred)
    else
      (none, { token := body.token, tokenExpires := some (now + validityWindow) })

/-- EnsureOut is the outcome of ensureAuthenticated: the returned error,
the resulting credential, and whether a renewal call was issued (an
observation added by the model). -/
structure EnsureOut where
  err : Option ClientErr
  cred : Cred
  renewed : Bool
deriving DecidableEq, Repr

/-- ensureAuthenticated models authenticatedClient.ensureAuthenticated
(src/client.go lines 270-281): fast validity check, then the re-check
under authMutex (identical in this sequential embedding), then a renewal
using the outcome call of the renewal exchange. -/
def ensureAuthenticated (now : Nat) (call : AuthHTTP) (cred : Cred) : EnsureOut :=
  if tokenValid now cred then ⟨none, cred, false⟩
  else if tokenValid now cred then ⟨none, cred, false⟩
  else
    let r := reauthenticate now call cred
    ⟨r.1, r.2, true⟩

/-- int64wrap reduces an integer to the two-complement int64 range, the
arithmetic of the Go Duration type. -/
def int64wrap (x : Int) : Int :=
  (x + 2 ^ 63) % 2 ^ 64 - 2 ^ 63

/-- int64shl is the Go left shift on int64. -/
def int64shl (x : Int) (n : Nat) : Int :=
  int64wrap (x * 2 ^ n)

/-- defaultBackoffNs is the 200 millisecond default base of wait
(src/client.go line 342), in nanoseconds. -/
def defaultBackoffNs : Int := 200000000

/-- waitDelay is the delay computed by wait (src/client.go lines 340-344):
the configured base, or the default when the base is not positive, shifted
left by the attempt index on int64. -/
def waitDelay (backoff : Int) (attempt : Nat) : Int :=
  int64shl (if backoff ≤ 0 then defaultBackoffNs else backoff) attempt

/-- wait models authenticatedClient.wait (src/client.go lines 339-355):
the select race between the timer of duration waitDelay and ctx.Done().
ctxDoneAt = some t means the cancellation fires t nanoseconds after the
wait starts; the cancellation wins when it fires strictly before the timer
(a simultaneous firing is resolved nondeterministically by the Go select
and is modelled as the timer winning). -/
def wait (backoff : Int) (attempt : Nat) (ctxDoneAt : Option Int) :
    Option ClientErr :=
  match ctxDoneAt with
  | some t => if t < waitDelay backoff attempt then some .ctxCanceled else none
  | none => none

/-- Response models an HTTP response as the loop observes it: the status
code and the body bytes (opaque to the loop). -/
structure Response where
  status : Nat
  body : String
deriving DecidableEq, Repr

/-- TranResult is the outcome of one httpClient.Do call inside the retry
loop. -/
inductive TranResult where
  | terr (msg : String)
  | resp (r : Response)
deriving DecidableEq, Repr

/-- SentRequest records one request the loop built and handed to the
transport: the bearer token attached, whether the Content-Type header was
set, and the body bytes sent. -/
structure SentRequest where
  token : String
  hasContentType : Bool
  body : Option (List Nat)
deriving DecidableEq, Repr

/-- DoResult is the value pair (resp, err) the Go Do returns, with exactly
one side set. -/
inductive DoResult where
  | ok (r : Response)
  | err (e : ClientErr)
deriving DecidableEq, Repr

/-- LoopOut is the observable outcome of the retry loop: the result, the
final credential, the requests sent (in order), and the responses whose
body the loop closed and discarded before retrying. -/
structure LoopOut where
  result : DoResult
  cred : Cred
  sent : List SentRequest
  discarded : List Response
deriving DecidableEq, Repr

/-- doLoop models the retry loop of authenticatedClient.Do (src/client.go
lines 218-267). attempts is the Go attempts variable (= maxRetries), fuel
the number of loop iterations still permitted, attempt the Go loop
counter; exhausting fuel is the fallthrough after the loop. Each iteration
runs ensureAuthenticated, builds the request, calls the transport, and
classifies the outcome exactly as the source: transport error returned
verbatim on the last attempt, otherwise a cancellable backoff wait and a
retry; a 401 or 403 status clears the token; a 429 status with attempts
remaining closes the body and retries after a cancellable wait; any other
response is returned at once. -/
def doLoop (attempts : Int) (backoff : Int) (transport : Nat → TranResult)
    (auth : Nat → AuthHTTP) (cancel : Nat → Option Int) (now : Nat)
    (bodyBytes : Option (List Nat)) : Nat → Nat → Cred → LoopOut
  | 0, _, cred => ⟨.err .retriesExhausted, cred, [], []⟩
  | fuel + 1, attempt, cred =>
    let ea := ensureAuthenticated now (auth attempt) cred
    match ea.err with
    | some e => ⟨.err e, ea.cred, [], []⟩
    | none =>
      let cred1 := ea.cred
      let req : SentRequest := ⟨readToken cred1, bodyBytes.isSome, bodyBytes⟩
      match transport attempt with
      | .terr m =>
        if (attempt : Int) = attempts then ⟨.err (.transport m), cred1, [req], []⟩
        else
          match wait backoff attempt (cancel attempt) with
          | some we => ⟨.err we, cred1, [req], []⟩
          | none =>
            let out := doLoop attempts backoff transport auth cancel now bodyBytes
                fuel (attempt + 1) cred1
            ⟨out.result, out.cred, req :: out.sent, out.discarded⟩
      | .resp r =>
        let cred2 := if r.status = 401 ∨ r.status = 403 then clearToken cred1 else cred1
        if r.status = 429 ∧ (attempt : Int) < attempts then
          match wait backoff attempt (cancel attempt) with
          | some we => ⟨.err we, cred2, [req], [r]⟩
          | none =>
            let out := doLoop attempts backoff transport auth cancel now bodyBytes
                fuel (attempt + 1) cred2
            ⟨out.result, out.cred, req :: out.sent, r :: out.discarded⟩
        else ⟨.ok r, cred2, [req], []⟩

/-- Config holds the retry configuration fields maxRetries and backoff of
the client struct (src/client.go lines 78-84); the base address, transport
and logger are abstracted as parameters of the operations. -/
structure Config where
  maxRetries : Int
  backoff : Int
deriving DecidableEq, Repr

/-- WithRetry models the option WithRetry (src/client.go lines 65-75): a
negative maxRetries is stored as 0; a backoff that is not positive leaves
the stored backoff unchanged. -/
def WithRetry (maxRetries : Int) (backoff : Int) (c : Config) : Config :=
  { maxRetries := if maxRetries < 0 then 0 else maxRetries,
    backoff := if backoff > 0 then backoff else c.backoff }

/-- BodySrc is the outcome of io.ReadAll on the request body reader: the
buffered bytes, or a read failure. -/
inductive BodySrc where
  | ok (bs : List Nat)
  | readErr (msg : String)
deriving DecidableEq, Repr

/-- Do models authenticatedClient.Do (src/client.go lines 201-268): the
optional body is fully read into a buffer once before the loop (a read
failure aborts before any attempt), then the loop runs with the counter
from 0 while it is at most attempts = maxRetries. -/
def Do (cfg : Config) (transport : Nat → TranResult) (auth : Nat → AuthHTTP)
    (cancel : Nat → Option Int) (now : Nat) (body : Option BodySrc)
    (cred : Cred) : LoopOut :=
  match body with
  | some (.readErr m) => ⟨.err (.readRequestBody m), cred, [], []⟩
  | some (.ok bs) =>
    doLoop cfg.maxRetries cfg.backoff transport auth cancel now (some bs)
      (cfg.maxRetries + 1).toNat 0 cred
  | none =>
    doLoop cfg.maxRetries cfg.backoff transport auth cancel now none
      (cfg.maxRetries + 1).toNat 0 cred

/-- singleFlightRun models N concurrent ensureAuthenticated callers that
all found the credential invalid on the fast path (the premise of the
single-flight contract) and then acquire authMutex one after the other:
the k-th renewal call issued pipeline-wide gets outcome auth k. It returns
the per-caller error outcomes in lock order, the final credential, and the
total number of renewal calls issued. -/
def singleFlightRun (now : Nat) (auth : Nat → AuthHTTP) :
    Nat → Cred → Nat → List (Option ClientErr) × Cred × Nat
  | 0, cred, k => ([], cred, k)
  | n + 1, cred, k =>
    let ea := ensureAuthenticated now (auth k) cred
    let rest := singleFlightRun now auth n ea.cred (if ea.renewed then k + 1 else k)
    (ea.err :: rest.1, rest.2.1, rest.2.2)

/-- credV is a concrete credential that is valid at instant 0 (non-empty
token, expiry 100). -/
def credV : Cred := ⟨"tok", some 100⟩

/-- authW is a concrete renewal behaviour: every renewal exchange returns
status 200 with a decodable body carrying the token fresh. -/
def authW : Nat → AuthHTTP := fun _ => .resp 200 ⟨"", true, "fresh"⟩

/-- staleCred is a concrete credential whose token is non-empty but whose
expiry (5) is in the past at instant 10. -/
def staleCred : Cred := ⟨"stale", some 5⟩

/-- authFailSeq is a concrete renewal behaviour whose first renewal
exchange fails with status 500 and whose later ones fail with status 503,
carrying distinct messages. -/
def authFailSeq : Nat → AuthHTTP :=
  fun k => if k = 0 then .resp 500 ⟨"a", true, ""⟩ else .resp 503 ⟨"b", true, ""⟩

/-! Shared helper lemmas. -/

/-- ensureAuthenticated is the identity on a currently valid credential
and issues no renewal. -/
theorem ensureAuthenticated_valid (now : Nat) (call : AuthHTTP) (cred : Cred)
    (h : tokenValid now cred = true) :
    ensureAuthenticated now call cred = ⟨none, cred, false⟩ := by
  simp [ensureAuthenticated, h]

/-- clearToken yields a credential that tokenValid rejects. -/
theorem tokenValid_clearToken (now : Nat) (c : Cred) :
    tokenValid now (clearToken c) = false := by
  simp [tokenValid, clearToken]

/-- a successful renewal installs a credential that is valid at the same
instant. -/
theorem tokenValid_fresh (now : Nat) (t : String) (h : t ≠ "") :
    tokenValid now ⟨t, some (now + validityWindow)⟩ = true := by
  simp [tokenValid, h, validityWindow]

/-- once the credential is valid, every later caller in lock order passes
the re-check and issues no renewal. -/
theorem singleFlightRun_valid (now : Nat) (auth : Nat → AuthHTTP) (n : Nat)
    (cred : Cred) (k : Nat) (h : tokenValid now cred = true) :
    singleFlightRun now auth n cred k = (List.replicate n none, cred, k) := by
  induction n generalizing k with
  | zero => simp [singleFlightRun]
  | succ m ih =>
    simp [singleFlightRun, ensureAuthenticated_valid now _ cred h, ih,
      List.replicate_succ]

/-- the loop performs at most fuel iterations, so it sends at most fuel
requests. -/
theorem doLoop_sent_le (attempts backoff : Int) (transport : Nat → TranResult)
    (auth : Nat → AuthHTTP) (cancel : Nat → Option Int) (now : Nat)
    (bb : Option (List Nat)) :
    ∀ fuel attempt cred,
      (doLoop attempts backoff transport auth cancel now bb fuel attempt cred).sent.length
        ≤ fuel := by
  intro fuel
  induction fuel with
  | zero => intro attempt cred; simp [doLoop]
  | succ m ih =>
    intro attempt cred
    simp only [doLoop]
    split
    · simp
    · split
      · split
        · simp
        · split
          · simp
          · simp only [List.length_cons]
            exact Nat.succ_le_succ (ih _ _)
      · split
        · split
          · simp
          · simp only [List.length_cons]
            exact Nat.succ_le_succ (ih _ _)
        · simp

/-- a loop iteration that starts with a valid credential always sends at
least one request, whatever the transport outcome. -/
theorem doLoop_sent_pos (attempts backoff : Int) (transport : Nat → TranResult)
    (auth : Nat → AuthHTTP) (cancel : Nat → Option Int) (now : Nat)
    (bb : Option (List Nat)) (fuel attempt : Nat) (cred : Cred)
    (h : tokenValid now cred = true) :
    1 ≤ (doLoop attempts backoff transport auth cancel now bb (fuel + 1) attempt
        cred).sent.length := by
  simp only [doLoop, ensureAuthenticated_valid now (auth attempt) cred h]
  split
  · split
    · simp
    · split
      · simp
      · simp
  · split
    · split
      · simp
      · simp
    · simp

/-- C6: tokenValid returns false whenever the token is empty; true
whenever the token is non-empty and the expiry is unset or strictly in
the future; and false whenever the expiry is in the past. As a pure
function of the credential it has no side effects on it. -/
theorem tokenValid_spec (now : Nat) (c : Cred) :
    (c.token = "" → tokenValid now c = false)
    ∧ (c.token ≠ "" → c.tokenExpires = none → tokenValid now c = true)
    ∧ (∀ e, c.token ≠ "" → c.tokenExpires = some e → now < e →
        tokenValid now c = true)
    ∧ (∀ e, c.tokenExpires = some e → e < now → tokenValid now c = false) := by
  refine ⟨fun h => by simp [tokenValid, h], fun h he => by simp [tokenValid, h, he],
    fun e h he hlt => by simp [tokenValid, h, he, hlt],
    fun e he hlt => ?_⟩
  by_cases h : c.token = ""
  · simp [tokenValid, h]
  · simp [tokenValid, h, he]
    omega

/-- witness for tokenValid_spec at concrete credentials: empty token,
unset expiry, future expiry, past expiry. -/
theorem tokenValid_spec_witness :
    tokenValid 5 ⟨"", none⟩ = false
    ∧ tokenValid 5 ⟨"t", none⟩ = true
    ∧ tokenValid 5 ⟨"t", some 9⟩ = true
    ∧ tokenValid 5 ⟨"t", some 3⟩ = false :=
  ⟨(tokenValid_spec 5 ⟨"", none⟩).1 rfl,
   (tokenValid_spec 5 ⟨"t", none⟩).2.1 (by decide) rfl,
   (tokenValid_spec 5 ⟨"t", some 9⟩).2.2.1 9 (by decide) rfl (by decide),
   (tokenValid_spec 5 ⟨"t", some 3⟩).2.2.2 3 rfl (by decide)⟩

/-- C5 counterexample: a renewal that receives an OK status with a
decodable body whose token is missing fails (an error is returned) while
the credential, reachable in this state because its expiry 5 is in the
past at instant 10, is left as it was — its non-empty token is not
cleared. -/
theorem reauthenticate_missing_token_counterexample :
    tokenValid 10 staleCred = false
    ∧ reauthenticate 10 (.resp 200 ⟨"", true, ""⟩) staleCred
        = (some .tokenMissing, staleCred)
    ∧ staleCred.token ≠ "" := by
  decide

/-- C5 amended: a renewal that receives a non-OK response status clears
the cached credential immediately and returns the status-mapped error; a
missing token in an otherwise-OK response is itself a failure that
returns an error but leaves the credential unchanged; and the credential
fields are populated with a new non-empty token only by a successful
renewal. -/
theorem reauthenticate_spec (now : Nat) (status : Nat) (body : AuthBody)
    (cred : Cred) :
    (status ≠ 200 → reauthenticate now (.resp status body) cred
        = ((mapHTTPError status body.msg).map ClientErr.pb, clearToken cred))
    ∧ (body.parseOk = true → body.token = "" →
        reauthenticate now (.resp 200 body) cred = (some .tokenMissing, cred))
    ∧ (∀ call, (reauthenticate now call cred).2.token ≠ ""
        → (reauthenticate now call cred).2.token ≠ cred.token
        → (reauthenticate now call cred).1 = none) := by
  refine ⟨fun h => by simp [reauthenticate, h], fun hp ht => by simp [reauthenticate, hp, ht],
    fun call h1 h2 => ?_⟩
  cases call with
  | terr m => simp [reauthenticate] at h2
  | readErr s m => simp [reauthenticate] at h2
  | resp s body2 =>
    by_cases hs : s ≠ 200
    · simp [reauthenticate, hs, clearToken] at h1
    · simp only [ne_eq, not_not] at hs
      subst hs
      by_cases hp : body2.parseOk = false
      · simp [reauthenticate, hp] at h2
      · simp only [Bool.not_eq_false] at hp
        by_cases ht : body2.token = ""
        · simp [reauthenticate, hp, ht] at h2
        · simp [reauthenticate, hp, ht]

/-- witness for reauthenticate_spec: a 500 renewal response clears the
concrete valid credential and returns the mapped server error; a missing
token returns an error and keeps the credential; a successful renewal
that installs the new token new returns no error. -/
theorem reauthenticate_spec_witness :
    reauthenticate 0 (.resp 500 ⟨"m", true, ""⟩) credV
      = ((mapHTTPError 500 "m").map ClientErr.pb, clearToken credV)
    ∧ reauthenticate 0 (.resp 200 ⟨"", true, ""⟩) credV = (some .tokenMissing, credV)
    ∧ (reauthenticate 0 (.resp 200 ⟨"", true, "new"⟩) credV).1 = none :=
  ⟨(reauthenticate_spec 0 500 ⟨"m", true, ""⟩ credV).1 (by decide),
   (reauthenticate_spec 0 200 ⟨"", true, ""⟩ credV).2.1 rfl rfl,
   (reauthenticate_spec 0 200 ⟨"", true, "new"⟩ credV).2.2
     (.resp 200 ⟨"", true, "new"⟩) (by decide) (by decide)⟩

/-- C1 counterexample: two concurrent ensureAuthenticated callers that
both found the empty credential invalid and whose renewal exchanges fail
(status 500 then 503) issue two renewal calls, not one, and receive
different errors. -/
theorem singleFlight_failure_counterexample :
    tokenValid 0 ⟨"", none⟩ = false
    ∧ (singleFlightRun 0 authFailSeq 2 ⟨"", none⟩ 0).2.2 = 2
    ∧ (singleFlightRun 0 authFailSeq 2 ⟨"", none⟩ 0).1
        = [some (.pb (.server "a")), some (.pb (.server "b"))] := by
  decide

/-- C1 amended: for every number N of concurrent ensureAuthenticated
callers that found the credential invalid, when the first renewal
exchange succeeds, exactly one renewal call is issued, all N callers
return without error, and the credential they share is the one that
renewal installed; when a renewal fails, each caller that still finds the
credential invalid issues its own renewal in turn, so several renewal
calls can be issued and callers can receive different errors. -/
theorem singleFlight_success (now : Nat) (auth : Nat → AuthHTTP) (N : Nat)
    (cred : Cred) (body : AuthBody)
    (h0 : auth 0 = .resp 200 body) (hp : body.parseOk = true)
    (htk : body.token ≠ "") (hinv : tokenValid now cred = false) (hN : 1 ≤ N) :
    singleFlightRun now auth N cred 0
      = (List.replicate N none, ⟨body.token, some (now + validityWindow)⟩, 1) := by
  obtain ⟨n, rfl⟩ : ∃ n, N = n + 1 := ⟨N - 1, by omega⟩
  have hre : reauthenticate now (auth 0) cred
      = (none, ⟨body.token, some (now + validityWindow)⟩) := by
    simp [h0, reauthenticate, hp, htk]
  have hea : ensureAuthenticated now (auth 0) cred
      = ⟨none, ⟨body.token, some (now + validityWindow)⟩, true⟩ := by
    simp [ensureAuthenticated, hinv, hre]
  simp [singleFlightRun, hea,
    singleFlightRun_valid now auth n _ 1 (tokenValid_fresh now body.token htk),
    List.replicate_succ]

/-- witness for singleFlight_success: three concurrent callers over the
empty credential with a succeeding renewal issue exactly one renewal
call, all return without error, and share the installed token fresh. -/
theorem singleFlight_success_witness :
    singleFlightRun 0 authW 3 ⟨"", none⟩ 0
      = (List.replicate 3 none, ⟨"fresh", some validityWindow⟩, 1) := by
  have h := singleFlight_success 0 authW 3 ⟨"", none⟩ ⟨"", true, "fresh"⟩
    rfl rfl (by decide) (by decide) (by decide)
  simpa using h

/-- C10: WithRetry stores a negative maxRetries as 0, so the stored retry
count is never negative and the dispatch loop always gets at least one
iteration (at least one request is sent when the credential is valid);
a backoff that is not positive leaves the stored backoff unchanged. -/
theorem WithRetry_spec (m b : Int) (c : Config) :
    (WithRetry m b c).maxRetries = (if m < 0 then 0 else m)
    ∧ 0 ≤ (WithRetry m b c).maxRetries
    ∧ (b ≤ 0 → (WithRetry m b c).backoff = c.backoff)
    ∧ ∀ (transport : Nat → TranResult) (auth : Nat → AuthHTTP)
        (cancel : Nat → Option Int) (now : Nat) (cred : Cred),
        tokenValid now cred = true →
        1 ≤ (Do (WithRetry m b c) transport auth cancel now none cred).sent.length := by
  refine ⟨rfl, ?_, fun hb => ?_, fun transport auth cancel now cred hv => ?_⟩
  · by_cases h : m < 0
    · simp [WithRetry, h]
    · simp [WithRetry, h]
      omega
  · have h : ¬ b > 0 := by omega
    simp [WithRetry, h]
  · have h0 : 0 ≤ (WithRetry m b c).maxRetries := by
      by_cases h : m < 0
      · simp [WithRetry, h]
      · simp [WithRetry, h]
        omega
    obtain ⟨k, hk⟩ : ∃ k, ((WithRetry m b c).maxRetries + 1).toNat = k + 1 :=
      ⟨((WithRetry m b c).maxRetries + 1).toNat - 1, by omega⟩
    simp only [Do, hk]
    exact doLoop_sent_pos _ _ transport auth cancel now none k 0 cred hv

/-- witness for WithRetry_spec: maxRetries -5 is stored as 0, a zero
backoff keeps the configured 7, and a dispatch against the resulting
configuration with a valid credential sends at least one request. -/
theorem WithRetry_spec_witness :
    (WithRetry (-5) 0 ⟨3, 7⟩).maxRetries = 0
    ∧ (WithRetry (-5) 0 ⟨3, 7⟩).backoff = 7
    ∧ 1 ≤ (Do (WithRetry (-5) 0 ⟨3, 7⟩) (fun _ => .terr "x") authW (fun _ => none)
        0 none credV).sent.length :=
  ⟨by simpa using (WithRetry_spec (-5) 0 ⟨3, 7⟩).1,
   (WithRetry_spec (-5) 0 ⟨3, 7⟩).2.2.1 (by decide),
   (WithRetry_spec (-5) 0 ⟨3, 7⟩).2.2.2 (fun _ => .terr "x") authW (fun _ => none)
     0 credV (by decide)⟩

/-- C2: every dispatch sends at most maxRetries + 1 requests; with
maxRetries = 2, a transport that always fails makes exactly 3 attempts
and the dispatch surfaces the transport error of the final attempt
verbatim, and a transport that fails exactly once and then returns a
success response completes in exactly 2 attempts with that response. -/
theorem do_retry_spec (backoff : Int) (now : Nat) (cred : Cred)
    (auth : Nat → AuthHTTP) (e : Nat → String) (r : Response)
    (hv : tokenValid now cred = true) (hr : r.status = 200) :
    (∀ (cfg : Config) (transport : Nat → TranResult) (cancel : Nat → Option Int)
        (body : Option BodySrc) (cred2 : Cred),
        (Do cfg transport auth cancel now body cred2).sent.length
          ≤ (cfg.maxRetries + 1).toNat)
    ∧ (Do ⟨2, backoff⟩ (fun i => .terr (e i)) auth (fun _ => none) now none cred).result
        = .err (.transport (e 2))
    ∧ (Do ⟨2, backoff⟩ (fun i => .terr (e i)) auth (fun _ => none) now none
        cred).sent.length = 3
    ∧ (Do ⟨2, backoff⟩ (fun i => if i = 0 then .terr (e 0) else .resp r) auth
        (fun _ => none) now none cred).result = .ok r
    ∧ (Do ⟨2, backoff⟩ (fun i => if i = 0 then .terr (e 0) else .resp r) auth
        (fun _ => none) now none cred).sent.length = 2 := by
  have hea : ∀ call, ensureAuthenticated now call cred = ⟨none, cred, false⟩ :=
    fun call => ensureAuthenticated_valid now call cred hv
  refine ⟨fun cfg transport cancel body cred2 => ?_, ?_, ?_, ?_, ?_⟩
  · cases body with
    | none =>
      simpa [Do] using
        doLoop_sent_le cfg.maxRetries cfg.backoff transport auth cancel now none _ 0 cred2
    | some bs =>
      cases bs with
      | ok l =>
        simpa [Do] using
          doLoop_sent_le cfg.maxRetries cfg.backoff transport auth cancel now (some l) _ 0 cred2
      | readErr msg => simp [Do]
  · simp [Do, doLoop, hea, wait, readToken]
  · simp [Do, doLoop, hea, wait, readToken]
  · simp [Do, doLoop, hea, wait, readToken, hr]
  · simp [Do, doLoop, hea, wait, readToken, hr]

/-- witness for do_retry_spec: with maxRetries 2 and the valid concrete
credential, an always failing transport yields the final error after 3
attempts and a transport failing only on the first attempt completes in
2 attempts. -/
theorem do_retry_spec_witness :
    (Do ⟨2, 0⟩ (fun _ => .terr "boom") authW (fun _ => none) 0 none credV).result
      = .err (.transport "boom")
    ∧ (Do ⟨2, 0⟩ (fun _ => .terr "boom") authW (fun _ => none) 0 none
        credV).sent.length = 3
    ∧ (Do ⟨2, 0⟩ (fun i => if i = 0 then .terr "boom" else .resp ⟨200, "ok"⟩) authW
        (fun _ => none) 0 none credV).sent.length = 2 :=
  ⟨(do_retry_spec 0 0 credV authW (fun _ => "boom") ⟨200, "ok"⟩ (by decide) rfl).2.1,
   (do_retry_spec 0 0 credV authW (fun _ => "boom") ⟨200, "ok"⟩ (by decide) rfl).2.2.1,
   (do_retry_spec 0 0 credV authW (fun _ => "boom") ⟨200, "ok"⟩ (by decide)
     rfl).2.2.2.2⟩

/-- reauthenticate never produces the defensive final error of the retry
loop. -/
theorem reauthenticate_ne_exhausted (now : Nat) (call : AuthHTTP) (cred : Cred) :
    (reauthenticate now call cred).1 ≠ some .retriesExhausted := by
  cases call with
  | terr m => simp [reauthenticate]
  | readErr s m => simp [reauthenticate]
  | resp s body =>
    by_cases hs : s ≠ 200
    · simp only [reauthenticate, if_pos hs]
      cases h : mapHTTPError s body.msg <;> simp [h]
    · simp only [ne_eq, not_not] at hs
      subst hs
      by_cases hp : body.parseOk = false
      · simp [reauthenticate, hp]
      · simp only [Bool.not_eq_false] at hp
        by_cases ht : body.token = "" <;> simp [reauthenticate, hp, ht]

/-- ensureAuthenticated never produces the defensive final error of the
retry loop. -/
theorem ensureAuthenticated_ne_exhausted (now : Nat) (call : AuthHTTP) (cred : Cred) :
    (ensureAuthenticated now call cred).err ≠ some .retriesExhausted := by
  unfold ensureAuthenticated
  split
  · simp
  · simpa using reauthenticate_ne_exhausted now call cred

/-- wait never produces the defensive final error of the retry loop. -/
theorem wait_ne_exhausted (b : Int) (a : Nat) (t : Option Int) :
    wait b a t ≠ some .retriesExhausted := by
  cases t with
  | none => simp [wait]
  | some x =>
    simp only [wait]
    split <;> simp

/-- with the loop invariant fuel = attempts + 1 - attempt and the loop
condition attempt ≤ attempts, the loop always returns from inside an
iteration, never by running out of fuel. -/
theorem doLoop_no_exhaust (attempts backoff : Int) (transport : Nat → TranResult)
    (auth : Nat → AuthHTTP) (cancel : Nat → Option Int) (now : Nat)
    (bb : Option (List Nat)) :
    ∀ (fuel attempt : Nat) (cred : Cred), (attempts + 1 - (attempt : Int)).toNat = fuel →
      (attempt : Int) ≤ attempts →
      (doLoop attempts backoff transport auth cancel now bb fuel attempt cred).result
        ≠ .err .retriesExhausted := by
  intro fuel
  induction fuel with
  | zero =>
    intro attempt cred hf hle
    omega
  | succ m ih =>
    intro attempt cred hf hle
    simp only [doLoop]
    split
    · rename_i e heq
      have hne := ensureAuthenticated_ne_exhausted now (auth attempt) cred
      rw [heq] at hne
      simpa using hne
    · split
      · rename_i mmsg heq2
        split
        · simp
        · rename_i hne
          split
          · rename_i we heqw
            have hw := wait_ne_exhausted backoff attempt (cancel attempt)
            rw [heqw] at hw
            simpa using hw
          · exact ih (attempt + 1) _ (by omega) (by omega)
      · rename_i r heq2
        split
        · split
          · rename_i we heqw
            have hw := wait_ne_exhausted backoff attempt (cancel attempt)
            rw [heqw] at hw
            simpa using hw
          · rename_i hcond heqw
            exact ih (attempt + 1) _ (by omega) (by omega)
        · simp

/-- C9: for every dispatch with a non-negative maxRetries, the generic
final error after the retry loop is unreachable: the dispatch result is
never that error, because the last permitted attempt always returns a
response or an error from inside the loop body. -/
theorem do_no_exhaust (cfg : Config) (transport : Nat → TranResult)
    (auth : Nat → AuthHTTP) (cancel : Nat → Option Int) (now : Nat)
    (body : Option BodySrc) (cred : Cred) (h : 0 ≤ cfg.maxRetries) :
    (Do cfg transport auth cancel now body cred).result ≠ .err .retriesExhausted := by
  cases body with
  | none =>
    simpa [Do] using
      doLoop_no_exhaust cfg.maxRetries cfg.backoff transport auth cancel now none
        (cfg.maxRetries + 1).toNat 0 cred (by omega) (by omega)
  | some bs =>
    cases bs with
    | ok l =>
      simpa [Do] using
        doLoop_no_exhaust cfg.maxRetries cfg.backoff transport auth cancel now (some l)
          (cfg.maxRetries + 1).toNat 0 cred (by omega) (by omega)
    | readErr msg => simp [Do]

/-- witness for do_no_exhaust: a dispatch with maxRetries 0 against a
failing transport does not return the generic final error. -/
theorem do_no_exhaust_witness :
    0 ≤ (0 : Int)
    ∧ (Do ⟨0, 0⟩ (fun _ => .terr "x") authW (fun _ => none) 0 none credV).result
        ≠ .err .retriesExhausted :=
  ⟨by decide,
   do_no_exhaust ⟨0, 0⟩ (fun _ => .terr "x") authW (fun _ => none) 0 none credV
     (by decide)⟩

/-- C3: a dispatch attempt whose response status is 401 or 403 clears the
cached credential immediately and returns that response as-is for the
attempt, without retrying inside the loop (exactly one request is sent
from that iteration on, and the loop ends with that response); the
cleared credential fails validation, so a subsequent ensureAuthenticated
issues a renewal with no caller action. -/
theorem do_unauthorized_spec (attempts backoff : Int) (transport : Nat → TranResult)
    (auth : Nat → AuthHTTP) (cancel : Nat → Option Int) (now : Nat)
    (bb : Option (List Nat)) (fuel attempt : Nat) (cred : Cred) (r : Response)
    (hv : tokenValid now cred = true)
    (ht : transport attempt = .resp r)
    (hs : r.status = 401 ∨ r.status = 403) :
    doLoop attempts backoff transport auth cancel now bb (fuel + 1) attempt cred
      = ⟨.ok r, clearToken cred, [⟨cred.token, bb.isSome, bb⟩], []⟩
    ∧ tokenValid now (clearToken cred) = false
    ∧ ∀ call, (ensureAuthenticated now call (clearToken cred)).renewed = true := by
  refine ⟨?_, tokenValid_clearToken now cred, fun call => ?_⟩
  · rcases hs with h | h <;>
      simp [doLoop, ensureAuthenticated_valid now (auth attempt) cred hv, ht, h,
        readToken]
  · simp [ensureAuthenticated, tokenValid_clearToken now cred]

/-- witness for do_unauthorized_spec: a 401 response clears the concrete
valid credential, is returned as-is, and the next ensureAuthenticated on
the cleared credential renews. -/
theorem do_unauthorized_spec_witness :
    doLoop 5 0 (fun _ => .resp ⟨401, "no"⟩) authW (fun _ => none) 0 none 1 0 credV
      = ⟨.ok ⟨401, "no"⟩, clearToken credV, [⟨"tok", false, none⟩], []⟩
    ∧ tokenValid 0 (clearToken credV) = false
    ∧ (ensureAuthenticated 0 (authW 0) (clearToken credV)).renewed = true := by
  have h := do_unauthorized_spec 5 0 (fun _ => .resp ⟨401, "no"⟩) authW (fun _ => none)
    0 none 0 0 credV ⟨401, "no"⟩ (by decide) rfl (Or.inl rfl)
  exact ⟨h.1, h.2.1, h.2.2 (authW 0)⟩

/-- C4: a dispatch attempt whose response status is 429 with attempts
remaining discards the response body and retries after the backoff wait,
consuming a retry slot (the loop recursion advances by one attempt and
records the 429 response as discarded); with no attempts remaining the
429 response is returned as-is; and with maxRetries at least 2, a server
returning 429 twice and then 200 makes the dispatch return the success
response after exactly 3 attempts, the two 429 responses discarded. -/
theorem do_rate_limit_spec (attempts backoff : Int) (transport : Nat → TranResult)
    (auth : Nat → AuthHTTP) (cancel : Nat → Option Int) (now : Nat)
    (bb : Option (List Nat)) (fuel attempt : Nat) (cred : Cred)
    (r r0 r1 r2 : Response) (mRet : Int)
    (hv : tokenValid now cred = true) :
    (transport attempt = .resp r → r.status = 429 → (attempt : Int) < attempts →
      cancel attempt = none →
      doLoop attempts backoff transport auth cancel now bb (fuel + 1) attempt cred
        = ⟨(doLoop attempts backoff transport auth cancel now bb fuel (attempt + 1) cred).result,
           (doLoop attempts backoff transport auth cancel now bb fuel (attempt + 1) cred).cred,
           ⟨cred.token, bb.isSome, bb⟩ ::
             (doLoop attempts backoff transport auth cancel now bb fuel (attempt + 1) cred).sent,
           r :: (doLoop attempts backoff transport auth cancel now bb fuel
             (attempt + 1) cred).discarded⟩)
    ∧ (transport attempt = .resp r → r.status = 429 → (attempt : Int) = attempts →
      doLoop attempts backoff transport auth cancel now bb (fuel + 1) attempt cred
        = ⟨.ok r, cred, [⟨cred.token, bb.isSome, bb⟩], []⟩)
    ∧ (2 ≤ mRet → r0.status = 429 → r1.status = 429 → r2.status = 200 →
      Do ⟨mRet, backoff⟩
          (fun i => if i = 0 then .resp r0 else if i = 1 then .resp r1 else .resp r2)
          auth (fun _ => none) now none cred
        = ⟨.ok r2, cred,
           [⟨cred.token, false, none⟩, ⟨cred.token, false, none⟩,
             ⟨cred.token, false, none⟩],
           [r0, r1]⟩) := by
  have hea : ∀ call, ensureAuthenticated now call cred = ⟨none, cred, false⟩ :=
    fun call => ensureAuthenticated_valid now call cred hv
  refine ⟨fun ht h429 hlt hc => ?_, fun ht h429 heq => ?_, fun hm h0 h1 h2 => ?_⟩
  · simp [doLoop, hea, ht, h429, hlt, hc, wait, readToken]
  · have hnlt : ¬ ((attempt : Int) < attempts) := by omega
    simp [doLoop, hea, ht, h429, hnlt, readToken]
  · obtain ⟨k, hk⟩ : ∃ k, (mRet + 1).toNat = k + 3 := ⟨(mRet + 1).toNat - 3, by omega⟩
    have ha : (0 : Int) < mRet := by omega
    have hb : (1 : Int) < mRet := by omega
    simp only [Do, hk]
    simp [doLoop, hea, wait, readToken, h0, h1, h2, ha, hb]

/-- witness for do_rate_limit_spec: against a server answering 429, 429,
200 with maxRetries 2 the dispatch returns the success response after 3
attempts with both 429 responses discarded, and a 429 on the last
permitted attempt is returned as-is. -/
theorem do_rate_limit_spec_witness :
    Do ⟨2, 0⟩
        (fun i => if i = 0 then .resp ⟨429, "a"⟩
          else if i = 1 then .resp ⟨429, "b"⟩ else .resp ⟨200, "ok"⟩)
        authW (fun _ => none) 0 none credV
      = ⟨.ok ⟨200, "ok"⟩, credV,
         [⟨"tok", false, none⟩, ⟨"tok", false, none⟩, ⟨"tok", false, none⟩],
         [⟨429, "a"⟩, ⟨429, "b"⟩]⟩
    ∧ doLoop 0 0 (fun _ => .resp ⟨429, "c"⟩) authW (fun _ => none) 0 none 1 0 credV
        = ⟨.ok ⟨429, "c"⟩, credV, [⟨"tok", false, none⟩], []⟩ :=
  ⟨(do_rate_limit_spec 2 0 (fun _ => .resp ⟨429, "c"⟩) authW (fun _ => none) 0 none
      0 0 credV ⟨429, "c"⟩ ⟨429, "a"⟩ ⟨429, "b"⟩ ⟨200, "ok"⟩ 2 (by decide)).2.2
      (by decide) rfl rfl rfl,
   (do_rate_limit_spec 0 0 (fun _ => .resp ⟨429, "c"⟩) authW (fun _ => none) 0 none
      0 0 credV ⟨429, "c"⟩ ⟨429, "a"⟩ ⟨429, "b"⟩ ⟨200, "ok"⟩ 2 (by decide)).2.1
      rfl rfl (by decide)⟩

/-- every request the loop sends carries the body bytes buffered before
the loop, whatever branch each iteration takes. -/
theorem doLoop_body_eq (attempts backoff : Int) (transport : Nat → TranResult)
    (auth : Nat → AuthHTTP) (cancel : Nat → Option Int) (now : Nat)
    (bb : Option (List Nat)) :
    ∀ (fuel attempt : Nat) (cred : Cred) (q : SentRequest),
      q ∈ (doLoop attempts backoff transport auth cancel now bb fuel attempt cred).sent →
      q.body = bb := by
  intro fuel
  induction fuel with
  | zero =>
    intro attempt cred q hq
    simp [doLoop] at hq
  | succ m ih =>
    intro attempt cred q hq
    simp only [doLoop] at hq
    split at hq
    · simp at hq
    · split at hq
      · split at hq
        · simp at hq
          simp [hq]
        · split at hq
          · simp at hq
            simp [hq]
          · simp only [LoopOut.sent] at hq
            rcases List.mem_cons.1 hq with h | h
            · simp [h]
            · exact ih _ _ q h
      · split at hq
        · split at hq
          · simp at hq
            simp [hq]
          · simp only [LoopOut.sent] at hq
            rcases List.mem_cons.1 hq with h | h
            · simp [h]
            · exact ih _ _ q h
        · simp at hq
          simp [hq]

/-- C7: a dispatch with a body reads it fully into a buffer once before
the retry loop starts, and every attempt — the first and every retried
one, after a transport error or a 429 — sends exactly those bytes: every
request recorded by the loop carries them byte-for-byte. A body whose
buffering read fails aborts the dispatch before any attempt. -/
theorem do_body_spec (cfg : Config) (transport : Nat → TranResult)
    (auth : Nat → AuthHTTP) (cancel : Nat → Option Int) (now : Nat)
    (bs : List Nat) (cred : Cred) :
    (∀ q ∈ (Do cfg transport auth cancel now (some (.ok bs)) cred).sent,
        q.body = some bs)
    ∧ ∀ (msg : String) (cred2 : Cred),
        Do cfg transport auth cancel now (some (.readErr msg)) cred2
          = ⟨.err (.readRequestBody msg), cred2, [], []⟩ := by
  constructor
  · intro q hq
    simp only [Do] at hq
    exact doLoop_body_eq cfg.maxRetries cfg.backoff transport auth cancel now
      (some bs) _ 0 cred q hq
  · intro msg cred2
    simp [Do]

/-- witness for do_body_spec: a dispatch of the bytes [1, 2] whose first
attempt fails with a transport error records both attempts with exactly
those bytes; the request shown is a member of the sent list and carries
the buffered body. -/
theorem do_body_spec_witness :
    ((⟨"tok", true, some [1, 2]⟩ : SentRequest)
        ∈ (Do ⟨1, 0⟩ (fun _ => .terr "x") authW (fun _ => none) 0
            (some (.ok [1, 2])) credV).sent)
    ∧ (⟨"tok", true, some [1, 2]⟩ : SentRequest).body = some [1, 2]
    ∧ Do ⟨1, 0⟩ (fun _ => .terr "x") authW (fun _ => none) 0
        (some (.readErr "bad")) credV
        = ⟨.err (.readRequestBody "bad"), credV, [], []⟩ :=
  ⟨by decide,
   (do_body_spec ⟨1, 0⟩ (fun _ => .terr "x") authW (fun _ => none) 0 [1, 2] credV).1
     ⟨"tok", true, some [1, 2]⟩ (by decide),
   (do_body_spec ⟨1, 0⟩ (fun _ => .terr "x") authW (fun _ => none) 0 [1, 2] credV).2
     "bad" credV⟩

/-- C8: the backoff delay for 0-indexed attempt i is the configured base
shifted left by i on int64, with the 200 ms default base when the
configured base is not positive; a cancellation signal that fires before
the delay elapses makes wait return the cancellation error, and the
dispatch loop then aborts with that error instead of completing the wait,
both on a transport-error retry and on a 429 retry. -/
theorem wait_cancel_spec (backoff : Int) (i : Nat) (t : Int) (attempts : Int)
    (transport : Nat → TranResult) (auth : Nat → AuthHTTP)
    (cancel : Nat → Option Int) (now : Nat) (bb : Option (List Nat))
    (fuel attempt : Nat) (cred : Cred) (m : String) (r : Response) :
    (0 < backoff → waitDelay backoff i = int64shl backoff i)
    ∧ (backoff ≤ 0 → waitDelay backoff i = int64shl defaultBackoffNs i)
    ∧ (t < waitDelay backoff i → wait backoff i (some t) = some .ctxCanceled)
    ∧ (tokenValid now cred = true → transport attempt = .terr m →
        (attempt : Int) ≠ attempts → cancel attempt = some t →
        t < waitDelay backoff attempt →
        (doLoop attempts backoff transport auth cancel now bb (fuel + 1) attempt
          cred).result = .err .ctxCanceled)
    ∧ (tokenValid now cred = true → transport attempt = .resp r →
        r.status = 429 → (attempt : Int) < attempts → cancel attempt = some t →
        t < waitDelay backoff attempt →
        (doLoop attempts backoff transport auth cancel now bb (fuel + 1) attempt
          cred).result = .err .ctxCanceled) := by
  refine ⟨fun h => ?_, fun h => ?_, fun h => ?_, fun hv ht hne hc hlt => ?_,
    fun hv ht h429 hltA hc hlt => ?_⟩
  · have hn : ¬ backoff ≤ 0 := by omega
    simp [waitDelay, hn]
  · simp [waitDelay, h]
  · simp [wait, h]
  · simp [doLoop, ensureAuthenticated_valid now (auth attempt) cred hv, ht, hne,
      hc, wait, hlt]
  · simp [doLoop, ensureAuthenticated_valid now (auth attempt) cred hv, ht, h429,
      hltA, hc, wait, hlt]

/-- witness for wait_cancel_spec: concrete delays for a configured and a
default base, a cancellation firing 3 ns into a 100 ns wait, and dispatch
loops aborting with the cancellation error during the wait after a
transport error and after a 429. -/
theorem wait_cancel_spec_witness :
    waitDelay 100 1 = int64shl 100 1
    ∧ waitDelay 0 1 = int64shl defaultBackoffNs 1
    ∧ wait 100 0 (some 3) = some .ctxCanceled
    ∧ (doLoop 5 0 (fun _ => .terr "x") authW (fun _ => some 0) 0 none 1 0
        credV).result = .err .ctxCanceled
    ∧ (doLoop 5 0 (fun _ => .resp ⟨429, "r"⟩) authW (fun _ => some 0) 0 none 1 0
        credV).result = .err .ctxCanceled :=
  ⟨(wait_cancel_spec 100 1 3 5 (fun _ => .terr "x") authW (fun _ => some 0) 0 none
      0 0 credV "x" ⟨429, "r"⟩).1 (by decide),
   (wait_cancel_spec 0 1 3 5 (fun _ => .terr "x") authW (fun _ => some 0) 0 none
      0 0 credV "x" ⟨429, "r"⟩).2.1 (by decide),
   (wait_cancel_spec 100 0 3 5 (fun _ => .terr "x") authW (fun _ => some 0) 0 none
      0 0 credV "x" ⟨429, "r"⟩).2.2.1 (by decide),
   (wait_cancel_spec 0 0 0 5 (fun _ => .terr "x") authW (fun _ => some 0) 0 none
      0 0 credV "x" ⟨429, "r"⟩).2.2.2.1 (by decide) rfl (by decide) rfl (by decide),
   (wait_cancel_spec 0 0 0 5 (fun _ => .resp ⟨429, "r"⟩) authW (fun _ => some 0) 0
      none 0 0 credV "x" ⟨429, "r"⟩).2.2.2.2 (by decide) rfl rfl (by decide) rfl
      (by decide)⟩

end Pbclient
